import Mathlib

/-!
Shallow embedding of the nutrition-planning application's arithmetic core
(src/utils/nutrition.py, src/utils/constants.py) and of the relevant
database operations (src/utils/db_manager.py), together with theorems
settling the spec claims.  Python floats are modelled as rationals,
Python round (banker's rounding) as an explicit half-to-even rounding,
and SQL tables as lists of rows.
-/

namespace NutritionApp

/-- Python round-half-to-even of a rational to an integer (the semantics of
the builtin round with ndigits omitted or 0). -/
def pyRoundInt (x : ℚ) : ℤ :=
  if x - ⌊x⌋ < 1/2 then ⌊x⌋
  else if 1/2 < x - ⌊x⌋ then ⌊x⌋ + 1
  else if 2 ∣ ⌊x⌋ then ⌊x⌋ else ⌊x⌋ + 1

/-- Python round(x, 0), as a rational. -/
def pyRound0 (x : ℚ) : ℚ := (pyRoundInt x : ℚ)

/-- Python round(x, 1), as a rational. -/
def pyRound1 (x : ℚ) : ℚ := (pyRoundInt (x * 10) : ℚ) / 10

theorem abs_pyRound0_sub_le (x : ℚ) : |pyRound0 x - x| ≤ 1/2 := by
  have h0 : (⌊x⌋ : ℚ) ≤ x := Int.floor_le x
  have h1 : x < ⌊x⌋ + 1 := Int.lt_floor_add_one x
  unfold pyRound0 pyRoundInt
  split_ifs with hlt hgt hev
  · rw [abs_le]; constructor <;> linarith
  · rw [abs_le]; push_cast; constructor <;> linarith
  · rw [abs_le]
    constructor <;> linarith [not_lt.mp hlt, not_lt.mp hgt]
  · rw [abs_le]; push_cast
    constructor <;> linarith [not_lt.mp hlt, not_lt.mp hgt]

theorem pyRound1_zero : pyRound1 0 = 0 := by
  norm_num [pyRound1, pyRoundInt]

/- Constants from src/utils/constants.py (class NutritionConstants). -/

namespace NutritionConstants

def PROTEIN_CALORIES_PER_GRAM : ℚ := 4
def CARB_CALORIES_PER_GRAM : ℚ := 4
def FAT_CALORIES_PER_GRAM : ℚ := 9
def DEFAULT_PROTEIN_PERCENTAGE : ℚ := 30
def DEFAULT_CARB_PERCENTAGE : ℚ := 45
def DEFAULT_FAT_PERCENTAGE : ℚ := 25
def PROTEIN_PER_KG_BODYWEIGHT : ℚ := 2

end NutritionConstants

/- Enum ActivityLevel from src/utils/constants.py. -/

inductive ActivityLevel where
  | sedentary
  | lightlyActive
  | veryActive
  | extremelyActive
deriving DecidableEq

def ActivityLevel.value : ActivityLevel → String
  | .sedentary => "Sedentary"
  | .lightlyActive => "Lightly Active"
  | .veryActive => "Very Active"
  | .extremelyActive => "Extremely Active"

def ActivityLevel.asList : List ActivityLevel :=
  [.sedentary, .lightlyActive, .veryActive, .extremelyActive]

def ActivityLevel.multiplier : ActivityLevel → ℚ
  | .sedentary => 1.2
  | .lightlyActive => 1.24
  | .veryActive => 1.4
  | .extremelyActive => 1.62

/-- ActivityLevel.get_multiplier on a string argument; the ValueError raised
on an unknown level is modelled as none. -/
def ActivityLevel.get_multiplier (level : String) : Option ℚ :=
  (ActivityLevel.asList.find? (fun l => l.value = level)).map ActivityLevel.multiplier

/-- calculate_bmr from src/utils/nutrition.py (Mifflin-St Jeor). -/
def calculate_bmr (weight height : ℚ) (age : ℚ) (gender : String) : ℚ :=
  if gender = "Male" then
    10 * weight + 6.25 * height * 100 - 5 * age + 5
  else
    10 * weight + 6.25 * height * 100 - 5 * age - 161

/-- calculate_tdee from src/utils/nutrition.py; the ValueError propagated
from get_multiplier on an unknown activity level is modelled as none. -/
def calculate_tdee (bmr : ℚ) (activity_level : String) : Option ℚ :=
  (ActivityLevel.get_multiplier activity_level).map (fun m => bmr * m)

/-- calculate_target_calories from src/utils/nutrition.py.  The GoalType
enum values are the strings Weight Loss, Maintenance, Weight Gain. -/
def calculate_target_calories (tdee : ℚ) (goal_type : String) (goal_percentage : ℚ) : ℚ :=
  if goal_type = "Weight Loss" then
    tdee * (1 - goal_percentage / 100)
  else if goal_type = "Weight Gain" then
    tdee * (1 + goal_percentage / 100)
  else
    tdee

/-- C6: calculate_bmr(70, 1.75, 30, Male) equals the Mifflin-St Jeor value
1648.75 exactly, and in general calculate_bmr computes
10*weight + 6.25*height*100 - 5*age, plus 5 for Male and minus 161 for any
other gender string. -/
theorem calculate_bmr_spec (w h a : ℚ) (g : String) (hg : g ≠ "Male") :
    calculate_bmr 70 1.75 30 "Male" = 1648.75 ∧
    calculate_bmr w h a "Male" = 10 * w + 6.25 * h * 100 - 5 * a + 5 ∧
    calculate_bmr w h a g = 10 * w + 6.25 * h * 100 - 5 * a - 161 := by
  refine ⟨by norm_num [calculate_bmr], by simp [calculate_bmr], ?_⟩
  simp [calculate_bmr, hg]

theorem calculate_bmr_spec_witness :
    calculate_bmr 70 1.75 30 "Male" = 1648.75 ∧
    calculate_bmr 60 1.6 25 "Female" = 10 * 60 + 6.25 * 1.6 * 100 - 5 * 25 - 161 := by
  have h := calculate_bmr_spec 60 1.6 25 "Female" (by decide)
  exact ⟨h.1, h.2.2⟩

/-- C7: calculate_tdee multiplies bmr by the fixed multiplier of the named
activity tier, of which there are exactly four (Sedentary 1.2,
Lightly Active 1.24, Very Active 1.4, Extremely Active 1.62); any other
level string has no multiplier (ValueError, modelled as none). -/
theorem calculate_tdee_spec (bmr : ℚ) (s : String)
    (hs : s ∉ ["Sedentary", "Lightly Active", "Very Active", "Extremely Active"]) :
    calculate_tdee bmr "Sedentary" = some (bmr * 1.2) ∧
    calculate_tdee bmr "Lightly Active" = some (bmr * 1.24) ∧
    calculate_tdee bmr "Very Active" = some (bmr * 1.4) ∧
    calculate_tdee bmr "Extremely Active" = some (bmr * 1.62) ∧
    calculate_tdee bmr s = none := by
  simp only [List.mem_cons, List.mem_singleton, not_or] at hs
  obtain ⟨h1, h2, h3, h4, -⟩ := hs
  refine ⟨?_, ?_, ?_, ?_, ?_⟩ <;>
    simp [calculate_tdee, ActivityLevel.get_multiplier, ActivityLevel.asList,
      List.find?, ActivityLevel.value, ActivityLevel.multiplier,
      h1, h2, h3, h4, Ne.symm h1, Ne.symm h2, Ne.symm h3, Ne.symm h4]

theorem calculate_tdee_spec_witness :
    calculate_tdee 1000 "Sedentary" = some (1000 * 1.2) ∧
    calculate_tdee 1000 "Walking" = none := by
  have h := calculate_tdee_spec 1000 "Walking" (by decide)
  exact ⟨h.1, h.2.2.2.2⟩

/-- C8: calculate_target_calories returns tdee*(1 - p/100) for Weight Loss,
tdee*(1 + p/100) for Weight Gain, and tdee unchanged for any other goal
type. -/
theorem calculate_target_calories_spec (tdee p : ℚ) (g : String)
    (hg1 : g ≠ "Weight Loss") (hg2 : g ≠ "Weight Gain") :
    calculate_target_calories tdee "Weight Loss" p = tdee * (1 - p / 100) ∧
    calculate_target_calories tdee "Weight Gain" p = tdee * (1 + p / 100) ∧
    calculate_target_calories tdee g p = tdee := by
  refine ⟨by simp [calculate_target_calories], by simp [calculate_target_calories], ?_⟩
  simp [calculate_target_calories, hg1, hg2]

theorem calculate_target_calories_spec_witness :
    calculate_target_calories 2000 "Weight Loss" 10 = 2000 * (1 - 10 / 100) ∧
    calculate_target_calories 2000 "Maintenance" 10 = 2000 := by
  have h := calculate_target_calories_spec 2000 10 "Maintenance" (by decide) (by decide)
  exact ⟨h.1, h.2.2⟩

/- Food records, as stored in the food_sources table and handed to the
nutrition helpers as dicts (src/utils/db_manager.py get_meal_with_foods
joins food_sources rows with meal_foods quantities). -/

structure Food where
  name : String
  calories : ℚ
  proteins : ℚ
  carbs : ℚ
  fats : ℚ
  base_unit : String
  conversion_factor : ℚ
deriving DecidableEq

structure Macros where
  calories : ℚ
  proteins : ℚ
  carbs : ℚ
  fats : ℚ
deriving DecidableEq

def Macros.zero : Macros := ⟨0, 0, 0, 0⟩

def Macros.add (m1 m2 : Macros) : Macros :=
  ⟨m1.calories + m2.calories, m1.proteins + m2.proteins,
   m1.carbs + m2.carbs, m1.fats + m2.fats⟩

def Macros.smul (a : ℚ) (m : Macros) : Macros :=
  ⟨a * m.calories, a * m.proteins, a * m.carbs, a * m.fats⟩

/-- calculate_food_macros from src/utils/nutrition.py. -/
def calculate_food_macros (food : Food) (quantity : ℚ) : Macros :=
  let factor :=
    if food.base_unit = "g" ∨ food.base_unit = "ml" then
      quantity / 100
    else
      quantity * food.conversion_factor / 100
  ⟨food.calories * factor, food.proteins * factor,
   food.carbs * factor, food.fats * factor⟩

/-- One food dictionary in the list form of calculate_meal_macros: a food
record that may or may not carry its own quantity key. -/
structure FoodWithQuantity where
  food : Food
  quantity : Option ℚ
deriving DecidableEq

/-- Looking a food name up in the foods DataFrame: first row whose name
column matches (the code takes .iloc[0] of the filtered frame). -/
def findFood (foods : List Food) (name : String) : Option Food :=
  foods.find? (fun f => f.name == name)

def roundMacros1 (m : Macros) : Macros :=
  ⟨pyRound1 m.calories, pyRound1 m.proteins, pyRound1 m.carbs, pyRound1 m.fats⟩

/-- The accumulation loop of calculate_meal_macros, case 1 (DataFrame of
foods plus a quantities dict keyed by food name). -/
def mealFoldDF (foods : List Food) (quantities : List (String × ℚ)) (acc : Macros) : Macros :=
  quantities.foldl
    (fun acc nq =>
      if nq.2 > (0:ℚ) then
        match findFood foods nq.1 with
        | some f => Macros.add acc (calculate_food_macros f nq.2)
        | none => acc
      else acc)
    acc

/-- calculate_meal_macros from src/utils/nutrition.py, case 1: DataFrame of
foods plus quantities dict; the four totals are rounded to one decimal. -/
def calculate_meal_macros_df (foods : List Food) (quantities : List (String × ℚ)) : Macros :=
  roundMacros1 (mealFoldDF foods quantities Macros.zero)

/-- The accumulation loop of calculate_meal_macros, case 2 (list of food
dictionaries, each carrying its own quantity key when present). -/
def mealFoldList (foods : List FoodWithQuantity) (acc : Macros) : Macros :=
  foods.foldl
    (fun acc fq =>
      match fq.quantity with
      | some q => if q > (0:ℚ) then Macros.add acc (calculate_food_macros fq.food q) else acc
      | none => acc)
    acc

/-- calculate_meal_macros from src/utils/nutrition.py, case 2: list of food
dictionaries that include quantities. -/
def calculate_meal_macros_list (foods : List FoodWithQuantity) : Macros :=
  roundMacros1 (mealFoldList foods Macros.zero)

/-- The list of food-with-quantity dictionaries that a saved regular meal
yields on re-read: each (name, quantity) pair resolved against the foods
table, names absent from the table producing no row (the SQL join drops
them). -/
def listForm (foods : List Food) (quantities : List (String × ℚ)) : List FoodWithQuantity :=
  quantities.filterMap (fun nq => (findFood foods nq.1).map (fun f => ⟨f, some nq.2⟩))

/-- C5: calculate_food_macros is linear in the quantity, and the scaling
factor is unit-aware: quantity/100 for base unit g or ml, and
quantity*conversion_factor/100 for count-based foods. -/
theorem calculate_food_macros_spec (food : Food) (q a : ℚ) (hq : 0 ≤ q) :
    calculate_food_macros food (a * q) = Macros.smul a (calculate_food_macros food q) ∧
    ((food.base_unit = "g" ∨ food.base_unit = "ml") →
      calculate_food_macros food q =
        Macros.smul (q / 100) ⟨food.calories, food.proteins, food.carbs, food.fats⟩) ∧
    (¬(food.base_unit = "g" ∨ food.base_unit = "ml") →
      calculate_food_macros food q =
        Macros.smul (q * food.conversion_factor / 100)
          ⟨food.calories, food.proteins, food.carbs, food.fats⟩) := by
  refine ⟨?_, ?_, ?_⟩
  · unfold calculate_food_macros Macros.smul
    split_ifs <;> simp only [Macros.mk.injEq] <;> refine ⟨by ring, by ring, by ring, by ring⟩
  · intro h
    unfold calculate_food_macros Macros.smul
    rw [if_pos h]
    simp only [Macros.mk.injEq]
    refine ⟨by ring, by ring, by ring, by ring⟩
  · intro h
    unfold calculate_food_macros Macros.smul
    rw [if_neg h]
    simp only [Macros.mk.injEq]
    refine ⟨by ring, by ring, by ring, by ring⟩

theorem calculate_food_macros_spec_witness :
    (0:ℚ) ≤ 3 ∧
    calculate_food_macros ⟨"Egg", 155, 13, 1, 11, "unit", 50⟩ (2 * 3) =
      Macros.smul 2 (calculate_food_macros ⟨"Egg", 155, 13, 1, 11, "unit", 50⟩ 3) :=
  ⟨by norm_num,
   (calculate_food_macros_spec ⟨"Egg", 155, 13, 1, 11, "unit", 50⟩ 3 2 (by norm_num)).1⟩

theorem mealFoldDF_eq_mealFoldList (foods : List Food) (qs : List (String × ℚ)) :
    ∀ acc : Macros, mealFoldDF foods qs acc = mealFoldList (listForm foods qs) acc := by
  induction qs with
  | nil => intro acc; rfl
  | cons nq qs ih =>
    intro acc
    unfold mealFoldDF mealFoldList listForm
    simp only [List.foldl_cons, List.filterMap_cons]
    cases hfind : findFood foods nq.1 with
    | none =>
      simp only [Option.map_none', hfind, ite_self]
      exact ih acc
    | some f =>
      simp only [Option.map_some', List.foldl_cons, hfind]
      exact ih _

/-- C4: on a foods table in which every named food occurs exactly once and a
quantities map with positive quantities, the DataFrame form of
calculate_meal_macros agrees with the list form in which each food
dictionary carries its own quantity, so re-deriving a saved regular meal's
macros from its stored rows matches computing them directly. -/
theorem calculate_meal_macros_roundtrip (foods : List Food) (qs : List (String × ℚ))
    (hpos : ∀ p ∈ qs, 0 < p.2)
    (huniq : ∀ p ∈ qs, (foods.filter (fun f => f.name == p.1)).length = 1) :
    calculate_meal_macros_df foods qs = calculate_meal_macros_list (listForm foods qs) := by
  unfold calculate_meal_macros_df calculate_meal_macros_list
  rw [mealFoldDF_eq_mealFoldList]

theorem calculate_meal_macros_roundtrip_witness :
    calculate_meal_macros_df
        [⟨"Rice", 130, 3, 28, 1, "g", 1⟩, ⟨"Egg", 155, 13, 1, 11, "unit", 50⟩]
        [("Rice", 150), ("Egg", 2)] =
      calculate_meal_macros_list
        (listForm [⟨"Rice", 130, 3, 28, 1, "g", 1⟩, ⟨"Egg", 155, 13, 1, 11, "unit", 50⟩]
          [("Rice", 150), ("Egg", 2)]) := by
  apply calculate_meal_macros_roundtrip
  · intro p hp
    fin_cases hp <;> norm_num
  · intro p hp
    fin_cases hp <;> rfl

/-- The Python idiom x or default applied to an optional float argument:
both None and 0 (falsy values) select the default. -/
def orDefault (x : Option ℚ) (d : ℚ) : ℚ :=
  match x with
  | none => d
  | some v => if v = 0 then d else v

structure MacroTargets where
  protein : ℚ
  carbs : ℚ
  fats : ℚ
deriving DecidableEq

/-- calculate_macro_targets from src/utils/nutrition.py: protein from
bodyweight, remaining calories split between carbs and fats by the
normalized percentage ratio, each gram value rounded to a whole number. -/
def calculate_macro_targets (weight target_calories : ℚ)
    (protein_per_kg carb_percentage fat_percentage : Option ℚ) : MacroTargets :=
  let ppk := orDefault protein_per_kg NutritionConstants.PROTEIN_PER_KG_BODYWEIGHT
  let cp := orDefault carb_percentage NutritionConstants.DEFAULT_CARB_PERCENTAGE
  let fp := orDefault fat_percentage NutritionConstants.DEFAULT_FAT_PERCENTAGE
  let protein_target := weight * ppk
  let protein_calories := protein_target * NutritionConstants.PROTEIN_CALORIES_PER_GRAM
  let remaining_calories := target_calories - protein_calories
  let total_percentage := cp + fp
  let adjusted_carb_percentage := cp / total_percentage * 100
  let adjusted_fat_percentage := fp / total_percentage * 100
  let carbs_target :=
    remaining_calories * (adjusted_carb_percentage / 100) / NutritionConstants.CARB_CALORIES_PER_GRAM
  let fats_target :=
    remaining_calories * (adjusted_fat_percentage / 100) / NutritionConstants.FAT_CALORIES_PER_GRAM
  ⟨pyRound0 protein_target, pyRound0 carbs_target, pyRound0 fats_target⟩

theorem calculate_macro_targets_default_eq (w t : ℚ) :
    calculate_macro_targets w t none none none =
      ⟨pyRound0 (w * 2),
       pyRound0 ((t - w * 2 * 4) * (45 / (45 + 25) * 100 / 100) / 4),
       pyRound0 ((t - w * 2 * 4) * (25 / (45 + 25) * 100 / 100) / 9)⟩ := rfl

theorem weighted_round_bound (x y z s : ℚ) (h : x * 4 + y * 4 + z * 9 = s) :
    |pyRound0 x * 4 + pyRound0 y * 4 + pyRound0 z * 9 - s| ≤ 17/2 := by
  have hx := abs_pyRound0_sub_le x
  have hy := abs_pyRound0_sub_le y
  have hz := abs_pyRound0_sub_le z
  rw [abs_le] at hx hy hz ⊢
  constructor <;> linarith [hx.1, hx.2, hy.1, hy.2, hz.1, hz.2]

/-- C3: with the default parameters (protein 2 g per kg, carb percentage 45,
fat percentage 25), the rounded gram values returned by
calculate_macro_targets satisfy protein*4 + carbs*4 + fats*9 = target
calories exactly up to the rounding error, hence within 8.5 kcal. -/
theorem calculate_macro_targets_balance (w t : ℚ) (hw : w > 0) :
    |(calculate_macro_targets w t none none none).protein * 4 +
     (calculate_macro_targets w t none none none).carbs * 4 +
     (calculate_macro_targets w t none none none).fats * 9 - t| ≤ 17/2 := by
  rw [calculate_macro_targets_default_eq]
  exact weighted_round_bound _ _ _ t (by ring)

theorem calculate_macro_targets_balance_witness :
    (70:ℚ) > 0 ∧
    |(calculate_macro_targets 70 2000 none none none).protein * 4 +
     (calculate_macro_targets 70 2000 none none none).carbs * 4 +
     (calculate_macro_targets 70 2000 none none none).fats * 9 - 2000| ≤ 17/2 :=
  ⟨by norm_num, calculate_macro_targets_balance 70 2000 (by norm_num)⟩

/-- C10: passing an explicit 0 for protein_per_kg, carb_percentage or
fat_percentage is indistinguishable from omitting the argument, because the
defaults are substituted through the Python or operator, which treats 0 as
falsy. -/
theorem calculate_macro_targets_zero_is_default (w t : ℚ) (p c f : Option ℚ) :
    calculate_macro_targets w t (some 0) c f = calculate_macro_targets w t none c f ∧
    calculate_macro_targets w t p (some 0) f = calculate_macro_targets w t p none f ∧
    calculate_macro_targets w t p c (some 0) = calculate_macro_targets w t p c none := by
  refine ⟨?_, ?_, ?_⟩ <;> simp [calculate_macro_targets, orDefault]

structure Compliance where
  calories_pct : ℚ
  proteins_pct : ℚ
  carbs_pct : ℚ
  fats_pct : ℚ
deriving DecidableEq

/-- get_macro_compliance from src/utils/nutrition.py: each ratio is guarded
by Python truthiness of the denominator (a zero target selects 0 instead of
dividing), rounded to one decimal, and capped at 100 by min. -/
def get_macro_compliance (macros : Macros) (targets : MacroTargets) : Compliance :=
  let macros_calories :=
    macros.proteins * NutritionConstants.PROTEIN_CALORIES_PER_GRAM +
    macros.carbs * NutritionConstants.CARB_CALORIES_PER_GRAM +
    macros.fats * NutritionConstants.FAT_CALORIES_PER_GRAM
  let target_calories :=
    targets.protein * NutritionConstants.PROTEIN_CALORIES_PER_GRAM +
    targets.carbs * NutritionConstants.CARB_CALORIES_PER_GRAM +
    targets.fats * NutritionConstants.FAT_CALORIES_PER_GRAM
  ⟨min 100 (pyRound1 (if target_calories ≠ 0 then macros_calories / target_calories * 100 else 0)),
   min 100 (pyRound1 (if targets.protein ≠ 0 then macros.proteins / targets.protein * 100 else 0)),
   min 100 (pyRound1 (if targets.carbs ≠ 0 then macros.carbs / targets.carbs * 100 else 0)),
   min 100 (pyRound1 (if targets.fats ≠ 0 then macros.fats / targets.fats * 100 else 0))⟩

/-- C9: get_macro_compliance is total for every macros and targets: a zero
target (or zero total target calories) yields a 0 compliance value instead
of a division error, and every returned compliance percentage is at most
100. -/
theorem get_macro_compliance_spec (m : Macros) (t : MacroTargets) :
    (get_macro_compliance m t).calories_pct ≤ 100 ∧
    (get_macro_compliance m t).proteins_pct ≤ 100 ∧
    (get_macro_compliance m t).carbs_pct ≤ 100 ∧
    (get_macro_compliance m t).fats_pct ≤ 100 ∧
    (t.protein = 0 → (get_macro_compliance m t).proteins_pct = 0) ∧
    (t.carbs = 0 → (get_macro_compliance m t).carbs_pct = 0) ∧
    (t.fats = 0 → (get_macro_compliance m t).fats_pct = 0) ∧
    (t.protein * NutritionConstants.PROTEIN_CALORIES_PER_GRAM +
       t.carbs * NutritionConstants.CARB_CALORIES_PER_GRAM +
       t.fats * NutritionConstants.FAT_CALORIES_PER_GRAM = 0 →
      (get_macro_compliance m t).calories_pct = 0) := by
  refine ⟨min_le_left _ _, min_le_left _ _, min_le_left _ _, min_le_left _ _, ?_, ?_, ?_, ?_⟩
  · intro h
    simp only [get_macro_compliance, h, ne_eq, not_true_eq_false, if_false, pyRound1_zero]
    norm_num
  · intro h
    simp only [get_macro_compliance, h, ne_eq, not_true_eq_false, if_false, pyRound1_zero]
    norm_num
  · intro h
    simp only [get_macro_compliance, h, ne_eq, not_true_eq_false, if_false, pyRound1_zero]
    norm_num
  · intro h
    simp only [get_macro_compliance, h, ne_eq, not_true_eq_false, if_false, pyRound1_zero]
    norm_num

theorem get_macro_compliance_spec_witness :
    (get_macro_compliance ⟨400, 30, 40, 10⟩ ⟨0, 0, 0⟩).proteins_pct = 0 ∧
    (get_macro_compliance ⟨400, 30, 40, 10⟩ ⟨0, 0, 0⟩).calories_pct = 0 := by
  have h := get_macro_compliance_spec ⟨400, 30, 40, 10⟩ ⟨0, 0, 0⟩
  exact ⟨h.2.2.2.2.1 rfl, h.2.2.2.2.2.2.2 (by norm_num [NutritionConstants.PROTEIN_CALORIES_PER_GRAM,
    NutritionConstants.CARB_CALORIES_PER_GRAM, NutritionConstants.FAT_CALORIES_PER_GRAM])⟩

/- The program_meals table from src/utils/db_manager.py.  The schema has no
UNIQUE constraint on (program_id, date, meal_time); rows are whatever the
operations insert. -/

structure ProgramMealRow where
  program_id : ℤ
  meal_id : ℤ
  date : String
  meal_time : String
deriving DecidableEq

/-- The WHERE clause program_id = ? AND date = ? AND meal_time = ? used by
update_program_meal, and the key of the slot-uniqueness invariant. -/
def slotMatches (pid : ℤ) (date meal_time : String) (r : ProgramMealRow) : Bool :=
  r.program_id == pid && r.date == date && r.meal_time == meal_time

/-- add_meal_to_program from src/utils/db_manager.py: an unconditional
INSERT INTO program_meals. -/
def add_meal_to_program (t : List ProgramMealRow) (pid mid : ℤ)
    (date meal_time : String) : List ProgramMealRow :=
  t ++ [⟨pid, mid, date, meal_time⟩]

/-- update_program_meal from src/utils/db_manager.py: if a row exists for
the (program, date, meal_time) slot, UPDATE its meal_id (the UPDATE touches
every matching row); otherwise INSERT a new row. -/
def update_program_meal (t : List ProgramMealRow) (pid mid : ℤ)
    (date meal_time : String) : List ProgramMealRow :=
  if t.any (slotMatches pid date meal_time) then
    t.map (fun r => if slotMatches pid date meal_time r then { r with meal_id := mid } else r)
  else
    t ++ [⟨pid, mid, date, meal_time⟩]

/-- Number of rows of the program_meals table in a given (program, date,
meal_time) slot. -/
def slotCount (t : List ProgramMealRow) (pid : ℤ) (date meal_time : String) : ℕ :=
  t.countP (slotMatches pid date meal_time)

/-- The claimed invariant: at most one meal per (program, date, slot). -/
def SlotInvariant (t : List ProgramMealRow) : Prop :=
  ∀ (pid : ℤ) (date meal_time : String), slotCount t pid date meal_time ≤ 1

/-- C1 counterexample: add_meal_to_program does not overwrite an occupied
slot; applied to a reachable one-row state it produces two rows for the
same (program, date, meal_time) triple. -/
theorem add_meal_to_program_breaks_slot_invariant :
    slotCount (add_meal_to_program [] 1 1 "2024-01-01" "Lunch") 1 "2024-01-01" "Lunch" = 1 ∧
    slotCount
      (add_meal_to_program (add_meal_to_program [] 1 1 "2024-01-01" "Lunch") 1 2
        "2024-01-01" "Lunch")
      1 "2024-01-01" "Lunch" = 2 := by
  constructor <;> rfl

/-- C1 amended: update_program_meal, the slot-assignment operation the UI
pages use, preserves the at-most-one-meal-per-slot invariant (it overwrites
the existing row or inserts into an empty slot); add_meal_to_program, by
contrast, inserts unconditionally. -/
theorem update_program_meal_preserves_slot_invariant (t : List ProgramMealRow)
    (pid mid : ℤ) (date meal_time : String) (h : SlotInvariant t) :
    SlotInvariant (update_program_meal t pid mid date meal_time) := by
  intro pid2 date2 mt2
  unfold update_program_meal
  split_ifs with hany
  · have hsame : slotCount
        (t.map (fun r => if slotMatches pid date meal_time r then { r with meal_id := mid } else r))
        pid2 date2 mt2 = slotCount t pid2 date2 mt2 := by
      unfold slotCount
      rw [List.countP_map]
      apply List.countP_congr
      intro r _
      simp only [Function.comp_apply]
      by_cases hm : slotMatches pid date meal_time r
      · rw [if_pos hm]; simp [slotMatches]
      · rw [if_neg hm]
    rw [hsame]
    exact h pid2 date2 mt2
  · unfold slotCount
    rw [List.countP_append]
    have hsingle : List.countP (slotMatches pid2 date2 mt2)
        [ProgramMealRow.mk pid mid date meal_time] =
        if slotMatches pid2 date2 mt2 (ProgramMealRow.mk pid mid date meal_time) then 1 else 0 := by
      simp [List.countP_cons]
    rw [hsingle]
    by_cases hslot : slotMatches pid2 date2 mt2 (ProgramMealRow.mk pid mid date meal_time) = true
    · rw [if_pos hslot]
      simp only [slotMatches, Bool.and_eq_true, beq_iff_eq] at hslot
      obtain ⟨⟨hp, hd⟩, hm⟩ := hslot
      have hzero : t.countP (slotMatches pid2 date2 mt2) = 0 := by
        rw [List.countP_eq_zero]
        intro r hr hc
        rw [List.any_eq_true] at hany
        push_neg at hany
        refine hany r hr ?_
        simp only [slotMatches, Bool.and_eq_true, beq_iff_eq] at hc ⊢
        exact ⟨⟨hp ▸ hc.1.1, hd ▸ hc.1.2⟩, hm ▸ hc.2⟩
      rw [hzero]
    · rw [if_neg hslot]
      simpa using h pid2 date2 mt2

theorem update_program_meal_preserves_slot_invariant_witness :
    SlotInvariant (update_program_meal [] 1 1 "2024-01-01" "Lunch") :=
  update_program_meal_preserves_slot_invariant [] 1 1 "2024-01-01" "Lunch"
    (fun pid date mt => by simp [slotCount])

/- The food_sources and meals tables for claim C2. -/

structure FoodSourceRow where
  name : String
  category : String
  calories : ℚ
  proteins : ℚ
  carbs : ℚ
  fats : ℚ
  portion_size : ℚ
  base_unit : String
  conversion_factor : ℚ
deriving DecidableEq

/-- save_food_source from src/utils/db_manager.py: the INSERT sits inside
the try block, so the UNIQUE(name) IntegrityError raised on a duplicate
name is caught and converted to False; nothing was committed, so the table
is unchanged. -/
def save_food_source (table : List FoodSourceRow) (name category : String)
    (calories proteins carbs fats portion_size : ℚ) (base_unit : String)
    (conversion_factor : ℚ) : List FoodSourceRow × Bool :=
  if table.any (fun r => r.name == name) then
    (table, false)
  else
    (table ++ [⟨name, category, calories, proteins, carbs, fats,
      portion_size, base_unit, conversion_factor⟩], true)

/-- Outcome of a call of save_meal: a returned boolean, or an uncaught
sqlite3.IntegrityError propagating to the caller. -/
inductive SaveMealOutcome where
  | ok (b : Bool)
  | raisedIntegrityError
deriving DecidableEq

/-- A row of the meals table; the calories/proteins/carbs/fats columns are
only populated for custom meals and NULL for regular meals. -/
structure MealRow where
  name : String
  category : String
  type : String
  macros : Option Macros
deriving DecidableEq

/-- A row of the meal_foods table; meal ids are assigned as consecutive
row numbers (sqlite lastrowid). -/
structure MealFoodRow where
  meal_id : ℕ
  food_id : ℤ
  quantity : ℚ
deriving DecidableEq

/-- save_meal from src/utils/db_manager.py.  The INSERT INTO meals is
executed before the try block begins, so on a duplicate meal name the
UNIQUE(name) IntegrityError propagates uncaught; commit is never reached
and the finally clause closes the connection, rolling the insert back, so
both tables are unchanged.  Otherwise the try block inserts the meal_foods
rows for a regular meal with a non-empty foods_quantities dict and commits;
meal_foods carries no UNIQUE constraint and sqlite does not enforce the
foreign keys, so no IntegrityError can arise there and the try returns
True. -/
def save_meal (meals : List MealRow) (meal_foods : List MealFoodRow)
    (name category meal_type : String) (foods_quantities : List (ℤ × ℚ))
    (custom_macros : Option Macros) :
    (List MealRow × List MealFoodRow) × SaveMealOutcome :=
  if meals.any (fun r => r.name == name) then
    ((meals, meal_foods), .raisedIntegrityError)
  else
    let newMeals := meals ++ [⟨name, category, meal_type,
      if meal_type = "custom" then custom_macros else none⟩]
    let meal_id := newMeals.length
    if meal_type = "regular" ∧ foods_quantities ≠ [] then
      ((newMeals, meal_foods ++ foods_quantities.map (fun fq => ⟨meal_id, fq.1, fq.2⟩)), .ok true)
    else
      ((newMeals, meal_foods), .ok true)

/-- C2: on a duplicate name, save_food_source does return False with the
table unchanged, but save_meal raises an uncaught IntegrityError instead of
returning False (its meals INSERT runs before the try block), leaving the
tables unchanged only through the rollback on close. -/
theorem save_meal_duplicate_name_raises :
    save_meal [⟨"Oats Bowl", "Breakfast", "regular", none⟩] []
        "Oats Bowl" "Breakfast" "regular" [(1, 50)] none =
      (([⟨"Oats Bowl", "Breakfast", "regular", none⟩], []), .raisedIntegrityError) ∧
    save_food_source [⟨"Rice", "Complex Carbohydrates", 130, 3, 28, 1, 100, "g", 1⟩]
        "Rice" "Complex Carbohydrates" 130 3 28 1 100 "g" 1 =
      ([⟨"Rice", "Complex Carbohydrates", 130, 3, 28, 1, 100, "g", 1⟩], false) := by
  constructor <;> rfl

end NutritionApp
